import Mathlib

set_option maxRecDepth 200000

/-!
Verification of the Grokipedia suggestions service (`src/main.py`) against its
specification.  The Python code is shallowly embedded: pure string processing is
translated to Lean functions on `String` (represented by its `List Char` data),
the Selenium-facing calls (filesystem probes, driver creation, navigation,
`find_elements`, `quit`) are oracles supplied through an environment record, and
raised exceptions become `Except` errors.  An event trace records provisioning,
driver creation and session teardown so that "is invoked" claims are statable.
-/

namespace Grok

/-! ## Python string primitives

Python's `str.strip()`, `str.lower()` and the `in` substring operator, modelled
on the character-list representation of `String`.  Only these operations of the
Python standard library are used by `src/main.py`. -/

/-- Whitespace characters removed by Python `str.strip()` (ASCII subset). -/
def pyIsSpace (c : Char) : Bool :=
  c = ' ' || c = '\t' || c = '\n' || c = '\x0d' || c = '\x0b' || c = '\x0c'

/-- `str.strip()` on the character list: drop leading and trailing whitespace. -/
def stripL (l : List Char) : List Char :=
  (l.dropWhile pyIsSpace).rdropWhile pyIsSpace

/-- Python `s.strip()`. -/
def pyStrip (s : String) : String :=
  ⟨stripL s.data⟩

/-- Lower-case a single character (ASCII, as used by the queries involved). -/
def charLower (c : Char) : Char :=
  if 'A' ≤ c ∧ c ≤ 'Z' then Char.ofNat (c.toNat + 32) else c

/-- Python `s.lower()`. -/
def pyLower (s : String) : String :=
  ⟨s.data.map charLower⟩

/-- Does `pat` occur at the head of `l`? -/
def leadsWith : List Char → List Char → Bool
  | [], _ => true
  | _ :: _, [] => false
  | p :: ps, c :: cs => p = c && leadsWith ps cs

/-- Does `pat` occur anywhere inside `l`?  (Python `pat in l`.) -/
def occursIn (pat : List Char) : List Char → Bool
  | [] => pat.isEmpty
  | c :: cs => leadsWith pat (c :: cs) || occursIn pat cs

/-- Python `pat in hay` on strings. -/
def containsSub (hay pat : String) : Bool :=
  occursIn pat.data hay.data

/-! ## Data model (`src/main.py` lines 44–56)

`SuggestionRequest.headless` is `Optional[bool]` in the pydantic model; `none`
models Python `None` (an explicit JSON null). -/

structure SuggestionRequest where
  query : String
  headless : Option Bool
deriving DecidableEq

structure SuggestionResponse where
  query : String
  suggestions : List String
  count : Nat
  status : String
deriving DecidableEq

/-- A raised `HTTPException`: status code and detail message. -/
structure HttpError where
  statusCode : Nat
  detail : String
deriving DecidableEq

/-! ## Extraction (`src/main.py` lines 196–246) -/

/-- The eight CSS selector patterns tried in priority order (lines 199–208). -/
def selectors : List String :=
  [ "div[class*=\x27cursor-pointer\x27] span"
  , "div.cursor-pointer span"
  , "[role=\x27option\x27]"
  , "div[class*=\x27search\x27] div[class*=\x27result\x27]"
  , "div[class*=\x27suggestion\x27]"
  , "div[class*=\x27autocomplete\x27] span"
  , "ul[class*=\x27suggestions\x27] li"
  , "div[class*=\x27dropdown\x27] div" ]

/-- The inner `for elem in elements` loop of lines 215–218: strip each element
text and append it when it is non-empty, longer than 2 characters and not
already collected. -/
def filterStep (acc : List String) : List String → List String
  | [] => acc
  | raw :: rest =>
    if pyStrip raw ≠ "" ∧ 2 < (pyStrip raw).length ∧ pyStrip raw ∉ acc then
      filterStep (acc ++ [pyStrip raw]) rest
    else
      filterStep acc rest

/-- A DOM oracle: the texts of the elements `driver.find_elements` returns for
a CSS selector, or `none` when the call raises. -/
def Dom : Type := String → Option (List String)

/-- The `for selector in selectors` loop of lines 210–224: skip a selector that
raises or matches no element, otherwise filter its texts into the accumulator
and stop as soon as the accumulator is non-empty. -/
def trySelectorsGo (dom : Dom) : List String → List String → List String
  | [], acc => acc
  | sel :: rest, acc =>
    match dom sel with
    | none => trySelectorsGo dom rest acc
    | some elems =>
      if elems.isEmpty then
        trySelectorsGo dom rest acc
      else if (filterStep acc elems).isEmpty then
        trySelectorsGo dom rest (filterStep acc elems)
      else
        filterStep acc elems

/-- Lines 210–224 starting from the empty `suggestions` list. -/
def trySelectors (dom : Dom) : List String :=
  trySelectorsGo dom selectors []

/-- The candidates a single selector pattern yields after the
trim/length/dedup filter, starting from an empty result set. -/
def selFiltered (dom : Dom) (sel : String) : List String :=
  match dom sel with
  | none => []
  | some elems => filterStep [] elems

/-- The fallback loop of lines 232–242: over the texts of all `div, span, li`
elements, keep a stripped text whose length is strictly between 2 and 200, that
contains the query case-insensitively, is not yet collected and differs from
the query; stop once 10 candidates are collected. -/
def fallbackGo (query : String) : List String → List String → List String
  | [], acc => acc
  | raw :: rest, acc =>
    if pyStrip raw ≠ "" ∧ 2 < (pyStrip raw).length ∧ (pyStrip raw).length < 200 ∧
        containsSub (pyLower (pyStrip raw)) (pyLower query) = true ∧
        pyStrip raw ∉ acc ∧ pyStrip raw ≠ query then
      if 10 ≤ (acc ++ [pyStrip raw]).length then acc ++ [pyStrip raw]
      else fallbackGo query rest (acc ++ [pyStrip raw])
    else
      fallbackGo query rest acc

/-- Lines 196–246: selector-based extraction, then — only when it produced
nothing — the fallback scan over all `div, span, li` elements (`allElems`,
`none` when that `find_elements` call raises; the exception is caught and the
empty list is returned). -/
def extractSuggestions (query : String) (dom : Dom)
    (allElems : Option (List String)) : List String :=
  let s := trySelectors dom
  if s.isEmpty then
    match allElems with
    | none => s
    | some elems => fallbackGo query elems s
  else s

/-! ## Driver provisioning (`src/main.py` lines 58–80 and 125–136) -/

/-- The canonical ChromeDriver installation paths probed by
`get_chromedriver_path` (lines 67–72). -/
def common_paths : List String :=
  [ "/usr/bin/chromedriver"
  , "/usr/local/bin/chromedriver"
  , "/opt/chromedriver/chromedriver"
  , "/usr/lib/chromium-browser/chromedriver" ]

/-- `get_chromedriver_path` (lines 58–80): `shutil.which` first, then the first
canonical path that exists (`os.path.exists`) and is executable
(`os.access(..., os.X_OK)`). -/
def get_chromedriver_path (which : Option String)
    (pathExists pathExec : String → Bool) : Option String :=
  match which with
  | some p => some p
  | none => common_paths.find? fun p => pathExists p && pathExec p

/-- The canonical Chrome binary paths (lines 125–130). -/
def chrome_binary_paths : List String :=
  [ "/usr/bin/google-chrome"
  , "/usr/bin/chromium-browser"
  , "/usr/bin/chromium"
  , "/usr/local/bin/chrome" ]

/-- The loop of lines 132–136: `binary_location` is set to the first canonical
Chrome path for which `os.path.exists` holds; only existence is checked and the
executable search path is never consulted for the browser binary. -/
def selectChromeBinary (pathExists : String → Bool) : Option String :=
  chrome_binary_paths.find? pathExists

/-- Claim C6 as worded ("search the process's executable search path; if
absent, probe the fixed ordered list of canonical installation paths and take
the first that exists and is executable"), stated for the browser executable.
Written from the claim, to be compared against `selectChromeBinary`. -/
def browserResolveClaimed (which : Option String)
    (pathExists pathExec : String → Bool) : Option String :=
  match which with
  | some p => some p
  | none => chrome_binary_paths.find? fun p => pathExists p && pathExec p

/-- The Chrome option arguments assembled in lines 102–122. -/
def chromeArgs (headless : Bool) : List String :=
  (if headless then ["--headless", "--headless=new"] else []) ++
  [ "--no-sandbox"
  , "--disable-dev-shm-usage"
  , "--disable-gpu"
  , "--disable-software-rasterizer"
  , "--disable-extensions"
  , "--disable-background-timer-throttling"
  , "--disable-backgrounding-occluded-windows"
  , "--disable-renderer-backgrounding"
  , "--disable-features=TranslateUI"
  , "--disable-ipc-flooding-protection"
  , "--window-size=1920,1080" ]

/-! ## The scraping call (`get_grokipedia_suggestions`, lines 83–261) -/

/-- Observable events of one scraping call: Chrome options were configured and
driver resolution ran (entry of the `try` block, lines 96–139), a driver
session was created (`webdriver.Chrome`), and `driver.quit()` was invoked. -/
inductive Ev
  | provision (headless : Bool)
  | createDriver
  | quit
deriving DecidableEq

/-- Oracles for everything `get_grokipedia_suggestions` observes from the
outside world.  `Option String` fields are `none` when the corresponding call
succeeds and `some e` when it raises an exception with message `e`. -/
structure Env where
  /-- `shutil.which('chromedriver')` (line 61). -/
  whichChromedriver : Option String
  /-- `os.path.exists` (lines 75 and 133). -/
  pathExists : String → Bool
  /-- `os.access(path, os.X_OK)` (line 75). -/
  pathExec : String → Bool
  /-- `WEBDRIVER_MANAGER_AVAILABLE` (lines 28–33). -/
  managerAvailable : Bool
  /-- `ChromeDriverManager().install()` (line 150): installed path or error. -/
  managerInstall : Except String String
  /-- `webdriver.Chrome(...)` (lines 145, 151, 162). -/
  chromeCreateErr : Option String
  /-- `driver.get("https://grokipedia.com/")` (line 179). -/
  navErr : Option String
  /-- Locating/clearing/typing into the search input (lines 185–189). -/
  inputErr : Option String
  /-- `driver.find_elements` per CSS selector (lines 212 and 231). -/
  dom : Dom
  /-- The texts of the `"div, span, li"` elements (line 231). -/
  allElems : Option (List String)
  /-- `driver.quit()` (line 258). -/
  quitErr : Option String

/-- `str(HTTPException(code, detail))` as produced by the web framework. -/
def httpExceptionStr (code : Nat) (detail : String) : String :=
  toString code ++ ": " ++ detail

/-- The outer `except Exception` handler (lines 248–253). -/
def wrapDetail (e : String) : String :=
  "Failed to get suggestions: " ++ e

/-- The webdriver-manager failure detail (line 157). -/
def managerFailMsg (e : String) : String :=
  "Failed to setup ChromeDriver with webdriver-manager: " ++ e

/-- The constant part of the remediation-listing error of lines 166–172. -/
def chromedriverNotFoundPre : String :=
  "ChromeDriver not found. Solutions:\n1. Install ChromeDriver: apt-get install chromium-chromedriver\n2. Install webdriver-manager: pip install webdriver-manager\n3. Add ChromeDriver to PATH\nError: "

/-- The remediation-listing error of lines 166–172. -/
def chromedriverNotFoundMsg (e : String) : String :=
  chromedriverNotFoundPre ++ e

/-- The `finally` block (lines 255–261): `driver.quit()` is attempted once;
an exception from it is caught by the inner `try`/`except` and only logged, so
the result is the same whether or not `quit` raises. -/
def runQuit (quitErr : Option String) (res : Except HttpError (List String)) :
    Except HttpError (List String) × List Ev :=
  match quitErr with
  | some _ => (res, [Ev.quit])
  | none => (res, [Ev.quit])

/-- Lines 178–246, reached once a driver session exists: navigation, input
location and typing, then extraction; any exception is converted by the outer
handler (lines 248–253) into an `HTTPException(500)`. -/
def scrapeBody (env : Env) (query : String) : Except HttpError (List String) :=
  match env.navErr with
  | some e => .error ⟨500, wrapDetail e⟩
  | none =>
    match env.inputErr with
    | some e => .error ⟨500, wrapDetail e⟩
    | none => .ok (extractSuggestions query env.dom env.allElems)

/-- The driver-session part of the call: run the body, then the `finally`
teardown. -/
def afterDriver (env : Env) (query : String) :
    Except HttpError (List String) × List Ev :=
  runQuit env.quitErr (scrapeBody env query)

/-- `get_grokipedia_suggestions` (lines 83–261).  Driver resolution follows
lines 139–176: a found ChromeDriver path is used directly; otherwise
webdriver-manager is tried when available (its failure raising an
`HTTPException` that line 248 re-wraps); otherwise Selenium's automatic
detection is tried, whose failure raises the remediation-listing
`HTTPException` (again re-wrapped by line 248).  On each path where
`webdriver.Chrome` succeeded the `finally` block tears the session down. -/
def scrape (env : Env) (headless : Bool) (query : String) :
    Except HttpError (List String) × List Ev :=
  let pv := Ev.provision headless
  match get_chromedriver_path env.whichChromedriver env.pathExists env.pathExec with
  | some _ =>
    match env.chromeCreateErr with
    | some e => (.error ⟨500, wrapDetail e⟩, [pv])
    | none =>
      ((afterDriver env query).1, pv :: Ev.createDriver :: (afterDriver env query).2)
  | none =>
    if env.managerAvailable then
      match env.managerInstall with
      | .error e =>
        (.error ⟨500, wrapDetail (httpExceptionStr 500 (managerFailMsg e))⟩, [pv])
      | .ok _ =>
        match env.chromeCreateErr with
        | some e =>
          (.error ⟨500, wrapDetail (httpExceptionStr 500 (managerFailMsg e))⟩, [pv])
        | none =>
          ((afterDriver env query).1, pv :: Ev.createDriver :: (afterDriver env query).2)
    else
      match env.chromeCreateErr with
      | some e =>
        (.error ⟨500, wrapDetail (httpExceptionStr 500 (chromedriverNotFoundMsg e))⟩, [pv])
      | none =>
        ((afterDriver env query).1, pv :: Ev.createDriver :: (afterDriver env query).2)

/-! ## The HTTP endpoint (`src/main.py` lines 277–321) -/

/-- Line 293: `request.headless if request.headless is not None else True`. -/
def handlerHeadless (req : SuggestionRequest) : Bool :=
  match req.headless with
  | some b => b
  | none => true

/-- The `POST /suggestions` handler `get_suggestions` (lines 277–321): reject a
blank query with a 400 before any browser work, otherwise scrape with the
trimmed query and build the response.  `HTTPException`s pass through unchanged
(line 314). -/
def get_suggestions (env : Env) (req : SuggestionRequest) :
    Except HttpError SuggestionResponse × List Ev :=
  if req.query = "" ∨ pyStrip req.query = "" then
    (.error ⟨400, "Query field is required and cannot be empty"⟩, [])
  else
    ((scrape env (handlerHeadless req) (pyStrip req.query)).1.map
       fun sugg => ⟨pyStrip req.query, sugg, sugg.length, "success"⟩,
     (scrape env (handlerHeadless req) (pyStrip req.query)).2)

/-- A request body as parsed JSON: `query` is `none` when the field is missing,
`headless` is `none` when missing and `some none` when an explicit null. -/
structure RawBody where
  query : Option String
  headless : Option (Option Bool)
deriving DecidableEq

/-- Pydantic validation of `SuggestionRequest` (lines 44–47): `query: str` is a
required field, so a body without it is rejected by the framework with a 422
validation error before the handler runs; `headless: Optional[bool] = True`
defaults to `True` when missing and accepts an explicit null. -/
def parseRequest (b : RawBody) : Except HttpError SuggestionRequest :=
  match b.query with
  | none => .error ⟨422, "Field required"⟩
  | some q =>
    .ok ⟨q, match b.headless with
            | none => some true
            | some v => v⟩

/-- The complete `POST /suggestions` behaviour: framework body validation, then
the handler. -/
def postSuggestions (env : Env) (b : RawBody) :
    Except HttpError SuggestionResponse × List Ev :=
  match parseRequest b with
  | .error e => (.error e, [])
  | .ok req => get_suggestions env req

/-! ## Concrete test fixtures used by the closed theorems -/

/-- Pattern (a) of the selector list. -/
def selPatternA : String := "div[class*=\x27cursor-pointer\x27] span"

/-- A DOM in which exactly pattern (a) matches three elements with texts
`"Category"`, `"cats"`, `"cats"`, and every other selector matches nothing. -/
def domA : Dom := fun sel =>
  if sel = selPatternA then some ["Category", "cats", "cats"] else some []

/-- A healthy environment: ChromeDriver on the search path, driver creation,
navigation and input all succeed, the DOM is `domA`. -/
def envA : Env where
  whichChromedriver := some "/usr/bin/chromedriver"
  pathExists := fun _ => false
  pathExec := fun _ => false
  managerAvailable := true
  managerInstall := .ok "/root/.wdm/chromedriver"
  chromeCreateErr := none
  navErr := none
  inputErr := none
  dom := domA
  allElems := some []
  quitErr := none

/-- A DOM hitting pattern (a); every other selector raises. -/
def domB : Dom := fun sel =>
  if sel = selPatternA then some ["Category", "cats", "cats"] else none

/-- Same pattern-(a) answer as `domB` but with every later selector matching
two junk elements: never consulted when pattern (a) hits. -/
def domB2 : Dom := fun sel =>
  if sel = selPatternA then some ["Category", "cats", "cats"] else some ["XXXX", "YYYY"]

/-- A DOM on which every selector matches one element whose stripped text has
length 2, so all eight patterns yield zero filtered candidates. -/
def domC : Dom := fun _ => some ["ab"]

/-- A 250-character text, longer than the fallback scan would allow. -/
def longText : String := ⟨List.replicate 250 'x'⟩

/-- Eleven distinct texts, none containing the query `"zzz"`. -/
def txts9 : List String :=
  ["alpha", "bravo", "charlie", "delta", "echo", "foxtrot",
   "golf", "hotel", "india", "juliet", longText]

/-- A DOM in which pattern (a) matches the eleven `txts9` elements. -/
def dom9 : Dom := fun sel => if sel = selPatternA then some txts9 else some []

/-- Existence check used in the C6 counterexample: only
`/usr/bin/google-chrome` exists. -/
def exC6 : String → Bool := fun p => p = "/usr/bin/google-chrome"

/-- Executability check that fails everywhere. -/
def execFalse : String → Bool := fun _ => false

/-- No driver anywhere, webdriver-manager available but its install fails. -/
def envNoDriverManagerFails : Env :=
  { envA with whichChromedriver := none, managerInstall := .error "boom" }

/-- No driver anywhere, webdriver-manager unavailable, Selenium automatic
detection succeeds. -/
def envNoDriverNoManager : Env :=
  { envA with whichChromedriver := none, managerAvailable := false }

/-! ## The result-set invariant -/

/-- The invariant of the spec for every produced suggestion list: no
duplicates, every entry longer than 2 characters, every entry already
stripped. -/
def GoodList (l : List String) : Prop :=
  l.Nodup ∧ ∀ s ∈ l, 2 < s.length ∧ pyStrip s = s

/-! ## Lemmas -/

lemma dropWhile_head_not {α : Type} (p : α → Bool) :
    ∀ (l : List α) (c : α) (cs : List α), l.dropWhile p = c :: cs → p c = false := by
  intro l
  induction l with
  | nil => intro c cs h; simp [List.dropWhile] at h
  | cons a t ih =>
    intro c cs h
    by_cases ha : p a
    · rw [List.dropWhile_cons_of_pos ha] at h
      exact ih c cs h
    · rw [List.dropWhile_cons_of_neg ha] at h
      cases h
      simpa using ha

lemma stripL_dropWhile (l : List Char) :
    (stripL l).dropWhile pyIsSpace = stripL l := by
  unfold stripL
  rcases h : (l.dropWhile pyIsSpace).rdropWhile pyIsSpace with _ | ⟨c, cs⟩
  · rfl
  · obtain ⟨t, ht⟩ := List.rdropWhile_prefix pyIsSpace (l.dropWhile pyIsSpace)
    rw [h] at ht
    have hc : pyIsSpace c = false := by
      refine dropWhile_head_not pyIsSpace l c (cs ++ t) ?_
      rw [← ht]
      simp
    simp [List.dropWhile, hc]

lemma stripL_idem (l : List Char) : stripL (stripL l) = stripL l := by
  show ((stripL l).dropWhile pyIsSpace).rdropWhile pyIsSpace = stripL l
  rw [stripL_dropWhile]
  show ((l.dropWhile pyIsSpace).rdropWhile pyIsSpace).rdropWhile pyIsSpace =
    (l.dropWhile pyIsSpace).rdropWhile pyIsSpace
  rw [List.rdropWhile_idempotent]

lemma pyStrip_idem (s : String) : pyStrip (pyStrip s) = pyStrip s := by
  show (⟨stripL (String.data ⟨stripL s.data⟩)⟩ : String) = ⟨stripL s.data⟩
  rw [show String.data ⟨stripL s.data⟩ = stripL s.data from rfl, stripL_idem]

lemma leadsWith_append (pat l l2 : List Char) (h : leadsWith pat l = true) :
    leadsWith pat (l ++ l2) = true := by
  induction pat generalizing l with
  | nil => rfl
  | cons p ps ih =>
    cases l with
    | nil => simp [leadsWith] at h
    | cons c cs =>
      simp only [leadsWith, Bool.and_eq_true, decide_eq_true_eq] at h
      simp only [List.cons_append, leadsWith, Bool.and_eq_true, decide_eq_true_eq]
      exact ⟨h.1, ih cs h.2⟩

lemma occursIn_append_left (pat l l2 : List Char) (h : occursIn pat l = true) :
    occursIn pat (l ++ l2) = true := by
  induction l with
  | nil =>
    have hp : pat = [] := by simpa [occursIn, List.isEmpty_iff] using h
    subst hp
    cases l2 <;> simp [occursIn, leadsWith]
  | cons c cs ih =>
    simp only [occursIn, Bool.or_eq_true] at h
    simp only [List.cons_append, occursIn, Bool.or_eq_true]
    rcases h with h | h
    · exact Or.inl (leadsWith_append pat (c :: cs) l2 h)
    · exact Or.inr (ih h)

lemma string_data_append (a b : String) : (a ++ b).data = a.data ++ b.data := by
  cases a; cases b; rfl

lemma containsSub_append_left (a b pat : String) (h : containsSub a pat = true) :
    containsSub (a ++ b) pat = true := by
  unfold containsSub at h ⊢
  rw [string_data_append]
  exact occursIn_append_left pat.data a.data b.data h

lemma goodList_nil : GoodList [] := by
  constructor
  · exact List.nodup_nil
  · intro s hs; cases hs

lemma goodList_append (acc : List String) (t : String) (hg : GoodList acc)
    (hlen : 2 < t.length) (hstrip : pyStrip t = t) (hmem : t ∉ acc) :
    GoodList (acc ++ [t]) := by
  constructor
  · rw [← List.concat_eq_append]
    exact List.Nodup.concat hmem hg.1
  · intro s hs
    rcases List.mem_append.1 hs with h | h
    · exact hg.2 s h
    · rcases List.mem_singleton.1 h with rfl
      exact ⟨hlen, hstrip⟩

lemma filterStep_good (texts : List String) :
    ∀ acc, GoodList acc → GoodList (filterStep acc texts) := by
  induction texts with
  | nil => intro acc h; simpa [filterStep] using h
  | cons raw rest ih =>
    intro acc h
    rw [filterStep]
    by_cases hc : pyStrip raw ≠ "" ∧ 2 < (pyStrip raw).length ∧ pyStrip raw ∉ acc
    · rw [if_pos hc]
      exact ih _ (goodList_append acc (pyStrip raw) h hc.2.1 (pyStrip_idem raw) hc.2.2)
    · rw [if_neg hc]
      exact ih _ h

lemma trySelectorsGo_good (dom : Dom) (sels : List String) :
    ∀ acc, GoodList acc → GoodList (trySelectorsGo dom sels acc) := by
  induction sels with
  | nil => intro acc h; simpa [trySelectorsGo] using h
  | cons sel rest ih =>
    intro acc h
    rw [trySelectorsGo]
    split
    · exact ih acc h
    · split
      · exact ih acc h
      · split
        · exact ih _ (filterStep_good _ acc h)
        · exact filterStep_good _ acc h

lemma fallbackGo_good (q : String) (elems : List String) :
    ∀ acc, GoodList acc → GoodList (fallbackGo q elems acc) := by
  induction elems with
  | nil => intro acc h; simpa [fallbackGo] using h
  | cons raw rest ih =>
    intro acc h
    rw [fallbackGo]
    by_cases hc : pyStrip raw ≠ "" ∧ 2 < (pyStrip raw).length ∧ (pyStrip raw).length < 200 ∧
        containsSub (pyLower (pyStrip raw)) (pyLower q) = true ∧
        pyStrip raw ∉ acc ∧ pyStrip raw ≠ q
    · rw [if_pos hc]
      have hg2 : GoodList (acc ++ [pyStrip raw]) :=
        goodList_append acc (pyStrip raw) h hc.2.1 (pyStrip_idem raw) hc.2.2.2.2.1
      by_cases hl : 10 ≤ (acc ++ [pyStrip raw]).length
      · rw [if_pos hl]; exact hg2
      · rw [if_neg hl]; exact ih _ hg2
    · rw [if_neg hc]
      exact ih _ h

lemma extractSuggestions_good (q : String) (dom : Dom) (alls : Option (List String)) :
    GoodList (extractSuggestions q dom alls) := by
  unfold extractSuggestions trySelectors
  have hts := trySelectorsGo_good dom selectors [] goodList_nil
  by_cases hse : (trySelectorsGo dom selectors []).isEmpty
  · rw [if_pos hse]
    rcases alls with _ | elems
    · exact hts
    · exact fallbackGo_good q elems _ hts
  · rw [if_neg hse]
    exact hts

lemma filterStep_nil_nil : filterStep [] [] = [] := rfl

lemma selFiltered_eq (dom : Dom) (sel : String) (elems : List String)
    (h : dom sel = some elems) : selFiltered dom sel = filterStep [] elems := by
  unfold selFiltered
  rw [h]

lemma selFiltered_none (dom : Dom) (sel : String) (h : dom sel = none) :
    selFiltered dom sel = [] := by
  unfold selFiltered
  rw [h]

lemma tryGo_skip (dom : Dom) (sel : String) (rest : List String)
    (hz : selFiltered dom sel = []) :
    trySelectorsGo dom (sel :: rest) [] = trySelectorsGo dom rest [] := by
  rw [trySelectorsGo]
  split
  · rfl
  · rename_i elems hds
    have hf : filterStep [] elems = [] := by
      rw [← selFiltered_eq dom sel elems hds]
      exact hz
    split
    · rfl
    · rw [hf]
      rfl

lemma tryGo_hit (dom : Dom) (sel : String) (rest : List String)
    (hnz : selFiltered dom sel ≠ []) :
    trySelectorsGo dom (sel :: rest) [] = selFiltered dom sel := by
  rw [trySelectorsGo]
  split
  · rename_i hds
    exact absurd (selFiltered_none dom sel hds) hnz
  · rename_i elems hds
    rw [selFiltered_eq dom sel elems hds] at hnz ⊢
    have he : ¬ elems.isEmpty = true := by
      intro h
      rw [List.isEmpty_iff.1 h] at hnz
      exact hnz filterStep_nil_nil
    rw [if_neg he, if_neg (by simpa [List.isEmpty_iff] using hnz)]

lemma tryGo_first (dom : Dom) (sel : String) (post : List String) :
    ∀ pre, (∀ s ∈ pre, selFiltered dom s = []) → selFiltered dom sel ≠ [] →
    trySelectorsGo dom (pre ++ sel :: post) [] = selFiltered dom sel := by
  intro pre
  induction pre with
  | nil => intro _ hhit; exact tryGo_hit dom sel post hhit
  | cons p ps ih =>
    intro hpre hhit
    rw [List.cons_append, tryGo_skip dom p (ps ++ sel :: post) (hpre p (List.mem_cons_self p ps))]
    exact ih (fun s hs => hpre s (List.mem_cons_of_mem p hs)) hhit

lemma tryGo_nil_iff (dom : Dom) (sels : List String) :
    trySelectorsGo dom sels [] = [] ↔ ∀ sel ∈ sels, selFiltered dom sel = [] := by
  induction sels with
  | nil => simp [trySelectorsGo]
  | cons sel rest ih =>
    constructor
    · intro h
      by_cases hz : selFiltered dom sel = []
      · intro s hs
        rcases List.mem_cons.1 hs with rfl | hs2
        · exact hz
        · rw [tryGo_skip dom sel rest hz] at h
          exact ih.1 h s hs2
      · rw [tryGo_hit dom sel rest hz] at h
        exact absurd h hz
    · intro h
      rw [tryGo_skip dom sel rest (h sel (List.mem_cons_self sel rest))]
      exact ih.2 fun s hs => h s (List.mem_cons_of_mem sel hs)

lemma fallbackGo_len (q : String) (elems : List String) :
    ∀ acc, acc.length < 10 → (fallbackGo q elems acc).length ≤ 10 := by
  induction elems with
  | nil =>
    intro acc hl
    rw [fallbackGo]
    exact Nat.le_of_lt hl
  | cons raw rest ih =>
    intro acc hl
    rw [fallbackGo]
    split
    · split
      · rw [List.length_append, List.length_singleton]
        omega
      · rename_i hten
        refine ih _ ?_
        omega
    · exact ih acc hl

lemma fallbackGo_mem (q : String) (elems : List String) :
    ∀ acc s, s ∈ fallbackGo q elems acc → s ∈ acc ∨
      (2 < s.length ∧ s.length < 200 ∧
       containsSub (pyLower s) (pyLower q) = true ∧ s ≠ q) := by
  induction elems with
  | nil =>
    intro acc s hs
    rw [fallbackGo] at hs
    exact Or.inl hs
  | cons raw rest ih =>
    intro acc s hs
    rw [fallbackGo] at hs
    have hstep : s ∈ acc ++ [pyStrip raw] →
        (pyStrip raw ≠ "" ∧ 2 < (pyStrip raw).length ∧ (pyStrip raw).length < 200 ∧
         containsSub (pyLower (pyStrip raw)) (pyLower q) = true ∧
         pyStrip raw ∉ acc ∧ pyStrip raw ≠ q) →
        s ∈ acc ∨ (2 < s.length ∧ s.length < 200 ∧
          containsSub (pyLower s) (pyLower q) = true ∧ s ≠ q) := by
      intro hmem hc
      rcases List.mem_append.1 hmem with hmem | hmem
      · exact Or.inl hmem
      · rcases List.mem_singleton.1 hmem with rfl
        exact Or.inr ⟨hc.2.1, hc.2.2.1, hc.2.2.2.1, hc.2.2.2.2.2⟩
    split at hs
    · rename_i hc
      split at hs
      · exact hstep hs hc
      · rcases ih _ s hs with hin | hp
        · exact hstep hin hc
        · exact Or.inr hp
    · exact ih acc s hs

lemma runQuit_eq (qe : Option String) (res : Except HttpError (List String)) :
    runQuit qe res = (res, [Ev.quit]) := by
  cases qe <;> rfl

lemma afterDriver_eq (env : Env) (q : String) :
    afterDriver env q = (scrapeBody env q, [Ev.quit]) :=
  runQuit_eq env.quitErr (scrapeBody env q)

lemma scrapeBody_ok (env : Env) (q : String) (l : List String)
    (h : scrapeBody env q = .ok l) :
    l = extractSuggestions q env.dom env.allElems := by
  unfold scrapeBody at h
  split at h
  · cases h
  · split at h
    · cases h
    · cases h
      rfl

lemma scrape_fst_ok (env : Env) (hd : Bool) (q : String) (l : List String)
    (h : (scrape env hd q).1 = .ok l) :
    l = extractSuggestions q env.dom env.allElems := by
  unfold scrape at h
  split at h
  · split at h
    · simp at h
    · rw [afterDriver_eq] at h
      exact scrapeBody_ok env q l h
  · split at h
    · split at h
      · simp at h
      · split at h
        · simp at h
        · rw [afterDriver_eq] at h
          exact scrapeBody_ok env q l h
    · split at h
      · simp at h
      · rw [afterDriver_eq] at h
        exact scrapeBody_ok env q l h

lemma scrape_trace (env : Env) (hd : Bool) (q : String) :
    (scrape env hd q).2 = [Ev.provision hd] ∨
    (scrape env hd q).2 = [Ev.provision hd, Ev.createDriver, Ev.quit] := by
  unfold scrape
  split
  · split
    · exact Or.inl rfl
    · simp [afterDriver_eq]
  · split
    · split
      · exact Or.inl rfl
      · split
        · exact Or.inl rfl
        · simp [afterDriver_eq]
    · split
      · exact Or.inl rfl
      · simp [afterDriver_eq]

lemma scrape_quitErr_fst (env : Env) (hd : Bool) (q : String) (e : Option String) :
    (scrape { env with quitErr := e } hd q).1 = (scrape env hd q).1 := by
  rcases env with ⟨w, pe, px, ma, mi, ce, ne, ie, dm, ae, qe⟩
  unfold scrape afterDriver runQuit scrapeBody
  dsimp only
  split
  · split
    · rfl
    · cases e <;> cases qe <;> rfl
  · split
    · split
      · rfl
      · split
        · rfl
        · cases e <;> cases qe <;> rfl
    · split
      · rfl
      · cases e <;> cases qe <;> rfl

lemma scrape_quit_count (env : Env) (hd : Bool) (q : String)
    (h : Ev.createDriver ∈ (scrape env hd q).2) :
    ((scrape env hd q).2.count Ev.quit) = 1 := by
  rcases scrape_trace env hd q with ht | ht
  · rw [ht] at h
    simp at h
  · rw [ht]
    simp [List.count_cons]

/-! ## The claims -/

lemma get_suggestions_ok (env : Env) (req : SuggestionRequest) (resp : SuggestionResponse)
    (tr : List Ev) (h : get_suggestions env req = (.ok resp, tr)) :
    resp.count = resp.suggestions.length ∧ resp.suggestions.Nodup ∧
    ∀ s ∈ resp.suggestions, s ≠ "" ∧ 2 < (pyStrip s).length := by
  unfold get_suggestions at h
  split at h
  · exact absurd (congrArg Prod.fst h) (by simp)
  · have h1 := congrArg Prod.fst h
    dsimp only at h1
    rcases hr : (scrape env (handlerHeadless req) (pyStrip req.query)).1 with err | sugg
    · rw [hr] at h1
      simp [Except.map] at h1
    · rw [hr] at h1
      simp only [Except.map] at h1
      injection h1 with h1
      have hsugg := scrape_fst_ok env (handlerHeadless req) (pyStrip req.query) sugg hr
      have hg := extractSuggestions_good (pyStrip req.query) env.dom env.allElems
      rw [← hsugg] at hg
      subst h1
      refine ⟨rfl, hg.1, ?_⟩
      intro s hsm
      obtain ⟨hlen, hstrip⟩ := hg.2 s hsm
      refine ⟨?_, ?_⟩
      · intro he
        rw [he] at hlen
        exact absurd hlen (by decide)
      · rw [hstrip]
        exact hlen

/-- C1: every successful response of `POST /suggestions` has `count` equal to
the length of `suggestions`, and `suggestions` contains no empty strings, no
strings whose trimmed length is 2 or less, and no duplicates (case-sensitive
exact match). -/
theorem claim1_success_invariant (env : Env) (b : RawBody) (resp : SuggestionResponse)
    (tr : List Ev) (h : postSuggestions env b = (.ok resp, tr)) :
    resp.count = resp.suggestions.length ∧ resp.suggestions.Nodup ∧
    ∀ s ∈ resp.suggestions, s ≠ "" ∧ 2 < (pyStrip s).length := by
  rcases b with ⟨bq, bh⟩
  rcases bq with _ | q
  · exact absurd (congrArg Prod.fst h) (by simp [postSuggestions, parseRequest])
  · rcases bh with _ | v
    · exact get_suggestions_ok env ⟨q, some true⟩ resp tr h
    · exact get_suggestions_ok env ⟨q, v⟩ resp tr h

/-- Witness for C1 at the concrete environment `envA` and query `"cat"`. -/
theorem claim1_success_invariant_witness :
    (SuggestionResponse.mk "cat" ["Category", "cats"] 2 "success").count =
      (SuggestionResponse.mk "cat" ["Category", "cats"] 2 "success").suggestions.length ∧
    (SuggestionResponse.mk "cat" ["Category", "cats"] 2 "success").suggestions.Nodup ∧
    ∀ s ∈ (SuggestionResponse.mk "cat" ["Category", "cats"] 2 "success").suggestions,
      s ≠ "" ∧ 2 < (pyStrip s).length :=
  claim1_success_invariant envA ⟨some "cat", none⟩ _ _ rfl

/-- C2 counterexample: a request body with the `query` field missing is
rejected by the framework's model validation with status 422, not 400. -/
theorem claim2_counterexample :
    (postSuggestions envA ⟨none, none⟩).1 = Except.error ⟨422, "Field required"⟩ ∧
    (postSuggestions envA ⟨none, none⟩).2 = [] ∧
    ¬ ∃ d, (postSuggestions envA ⟨none, none⟩).1 = Except.error ⟨400, d⟩ := by
  refine ⟨rfl, rfl, ?_⟩
  rintro ⟨d, hd⟩
  rw [show (postSuggestions envA ⟨none, none⟩).1 =
      Except.error ⟨422, "Field required"⟩ from rfl] at hd
  injection hd with hd
  simp at hd

/-- C2 amended: a present but empty or whitespace-only query yields status 400
with no browser work (empty event trace), while a missing query field is
rejected by the framework with a 422 validation error, also with no browser
work. -/
theorem claim2_amended (env : Env) (q : String) (hl : Option (Option Bool))
    (hq : pyStrip q = "") :
    postSuggestions env ⟨some q, hl⟩ =
      (.error ⟨400, "Query field is required and cannot be empty"⟩, []) ∧
    postSuggestions env ⟨none, hl⟩ = (.error ⟨422, "Field required"⟩, []) := by
  constructor
  · show get_suggestions env ⟨q, _⟩ = _
    unfold get_suggestions
    rw [if_pos (Or.inr hq)]
  · rfl

/-- Witness for C2 amended: whitespace-only query `"   "`. -/
theorem claim2_amended_witness :
    postSuggestions envA ⟨some "   ", none⟩ =
      (.error ⟨400, "Query field is required and cannot be empty"⟩, []) ∧
    postSuggestions envA ⟨none, none⟩ = (.error ⟨422, "Field required"⟩, []) :=
  claim2_amended envA "   " none rfl

/-- C8: on every path of the scraping call where a driver session was created,
`driver.quit()` is invoked exactly once, and an exception raised by `quit` is
swallowed: the call's result does not depend on the quit outcome at all. -/
theorem claim8_teardown_once (env : Env) (hd : Bool) (q : String) (e : Option String) :
    (Ev.createDriver ∈ (scrape env hd q).2 → (scrape env hd q).2.count Ev.quit = 1) ∧
    (scrape { env with quitErr := e } hd q).1 = (scrape env hd q).1 :=
  ⟨scrape_quit_count env hd q, scrape_quitErr_fst env hd q e⟩

/-- Witness for C8 at `envA`, where the driver session is created. -/
theorem claim8_teardown_once_witness :
    (scrape envA true "cat").2.count Ev.quit = 1 ∧
    (scrape { envA with quitErr := some "boom" } true "cat").1 = (scrape envA true "cat").1 :=
  ⟨(claim8_teardown_once envA true "cat" (some "boom")).1 (by decide),
   (claim8_teardown_once envA true "cat" (some "boom")).2⟩

/-- C10: an explicit null `headless` field is accepted and behaves exactly as
omitting the field, and a non-blank request then scrapes with headless mode
enabled (the default `true`). -/
theorem claim10_headless_null (env : Env) (q : String) :
    postSuggestions env ⟨some q, some none⟩ = postSuggestions env ⟨some q, none⟩ ∧
    (pyStrip q ≠ "" → Ev.provision true ∈ (postSuggestions env ⟨some q, some none⟩).2) := by
  constructor
  · rfl
  · intro hq
    have hcond : ¬ (q = "" ∨ pyStrip q = "") := by
      rintro (h1 | h1)
      · apply hq
        rw [h1]
        rfl
      · exact hq h1
    show Ev.provision true ∈ (get_suggestions env ⟨q, none⟩).2
    unfold get_suggestions
    rw [if_neg hcond]
    dsimp only [handlerHeadless]
    rcases scrape_trace env true (pyStrip q) with ht | ht <;>
      · rw [ht]
        exact List.mem_cons_self _ _

/-- Witness for C10 at `envA` and query `"cat"`. -/
theorem claim10_headless_null_witness :
    postSuggestions envA ⟨some "cat", some none⟩ = postSuggestions envA ⟨some "cat", none⟩ ∧
    Ev.provision true ∈ (postSuggestions envA ⟨some "cat", some none⟩).2 :=
  ⟨(claim10_headless_null envA "cat").1,
   (claim10_headless_null envA "cat").2 (by decide)⟩

/-- C3: extraction tries the eight selector patterns in priority order and
stops at the first one yielding at least one filtered candidate; later
patterns and the fallback scan are never consulted (the result is independent
of what they would return). -/
theorem claim3_first_pattern_stops (q : String) (dom dom2 : Dom)
    (alls alls2 : Option (List String)) (pre post : List String) (sel : String)
    (hsp : selectors = pre ++ sel :: post)
    (hpre : ∀ s ∈ pre, selFiltered dom s = [])
    (hhit : selFiltered dom sel ≠ [])
    (hpre2 : ∀ s ∈ pre, dom2 s = dom s)
    (hsel2 : dom2 sel = dom sel) :
    extractSuggestions q dom alls = selFiltered dom sel ∧
    extractSuggestions q dom2 alls2 = extractSuggestions q dom alls := by
  have h1 : ∀ (d : Dom) (al : Option (List String)), (∀ s ∈ pre, selFiltered d s = []) →
      selFiltered d sel ≠ [] → extractSuggestions q d al = selFiltered d sel := by
    intro d al hp hh
    unfold extractSuggestions trySelectors
    rw [hsp, tryGo_first d sel post pre hp hh,
      if_neg (by simpa [List.isEmpty_iff] using hh)]
  have hselEq : selFiltered dom2 sel = selFiltered dom sel := by
    unfold selFiltered
    rw [hsel2]
  have hpre2' : ∀ s ∈ pre, selFiltered dom2 s = [] := by
    intro s hs
    have h0 := hpre s hs
    unfold selFiltered at h0 ⊢
    rw [hpre2 s hs]
    exact h0
  have hhit2 : selFiltered dom2 sel ≠ [] := by
    rw [hselEq]
    exact hhit
  refine ⟨h1 dom alls hpre hhit, ?_⟩
  rw [h1 dom2 alls2 hpre2' hhit2, hselEq, h1 dom alls hpre hhit]

/-- Witness for C3: pattern (a) hits on `domB`; the result ignores both the
other selectors (which differ between `domB` and `domB2`) and the fallback
elements. -/
theorem claim3_witness :
    extractSuggestions "cat" domB (some ["aaaa", "bbbb"]) = ["Category", "cats"] ∧
    extractSuggestions "cat" domB2 none = extractSuggestions "cat" domB (some ["aaaa", "bbbb"]) := by
  have h := claim3_first_pattern_stops "cat" domB domB2 (some ["aaaa", "bbbb"]) none
    [] (selectors.drop 1) selPatternA rfl
    (by intro s hs; cases hs) (by decide) (by intro s hs; cases hs) rfl
  exact ⟨h.1.trans (by decide), h.2⟩

/-- C4: the fallback scan runs exactly when all eight patterns yield zero
filtered candidates, and its result has at most 10 entries, no duplicates,
each with trimmed length strictly between 2 and 200, containing the query
case-insensitively and differing from the query. -/
theorem claim4_fallback_characterisation (q : String) (dom : Dom) (elems : List String)
    (alls alls2 : Option (List String)) :
    (trySelectors dom = [] ↔ ∀ sel ∈ selectors, selFiltered dom sel = []) ∧
    (trySelectors dom = [] → extractSuggestions q dom (some elems) = fallbackGo q elems []) ∧
    (trySelectors dom ≠ [] → extractSuggestions q dom alls = extractSuggestions q dom alls2) ∧
    (fallbackGo q elems []).length ≤ 10 ∧
    (fallbackGo q elems []).Nodup ∧
    (∀ s ∈ fallbackGo q elems [], 2 < s.length ∧ s.length < 200 ∧
      containsSub (pyLower s) (pyLower q) = true ∧ s ≠ q) := by
  refine ⟨tryGo_nil_iff dom selectors, ?_, ?_, fallbackGo_len q elems [] (by decide),
    (fallbackGo_good q elems [] goodList_nil).1, ?_⟩
  · intro h
    unfold extractSuggestions
    rw [h]
    rfl
  · intro h
    have hne : ¬ (trySelectors dom).isEmpty = true := by
      simpa [List.isEmpty_iff] using h
    unfold extractSuggestions
    rw [if_neg hne, if_neg hne]
  · intro s hs
    rcases fallbackGo_mem q elems [] s hs with hin | hp
    · cases hin
    · exact hp

/-- Witness for C4: on `domC` every pattern filters to nothing, so the
fallback runs; its result keeps `"catalog"` and `"the cat page"` only. -/
theorem claim4_witness :
    extractSuggestions "cat" domC (some ["catalog", "cat", "the cat page", "xx"]) =
      fallbackGo "cat" ["catalog", "cat", "the cat page", "xx"] [] ∧
    fallbackGo "cat" ["catalog", "cat", "the cat page", "xx"] [] =
      ["catalog", "the cat page"] ∧
    (fallbackGo "cat" ["catalog", "cat", "the cat page", "xx"] []).length ≤ 10 :=
  ⟨(claim4_fallback_characterisation "cat" domC
      ["catalog", "cat", "the cat page", "xx"] none none).2.1 (by decide),
   by decide,
   (claim4_fallback_characterisation "cat" domC
      ["catalog", "cat", "the cat page", "xx"] none none).2.2.2.1⟩

/-- C5: the end-to-end example: query `"cat"`, DOM exposing three pattern-(a)
elements `"Category"`, `"cats"`, `"cats"`; the response is
`{query: "cat", suggestions: ["Category", "cats"], count: 2,
status: "success"}` with the duplicate removed and insertion order kept. -/
theorem claim5_end_to_end :
    postSuggestions envA ⟨some "cat", none⟩ =
      (.ok ⟨"cat", ["Category", "cats"], 2, "success"⟩,
       [Ev.provision true, Ev.createDriver, Ev.quit]) := rfl

/-- C9 (implicit): the primary selector path has no 10-item cap, no 200
character bound and no query-containment filter: a DOM exists for which it
returns 11 suggestions, among them one not containing the query and one of
length 250. -/
theorem claim9_primary_unbounded :
    ∃ (dom : Dom) (q : String) (alls : Option (List String)),
      10 < (extractSuggestions q dom alls).length ∧
      (∃ s ∈ extractSuggestions q dom alls, containsSub (pyLower s) (pyLower q) = false) ∧
      (∃ s ∈ extractSuggestions q dom alls, 200 ≤ s.length) := by
  refine ⟨dom9, "zzz", some [], by decide, ⟨"alpha", by decide, by decide⟩,
    ⟨longText, by decide, by decide⟩⟩

/-- C6 counterexample: the code's browser-binary selection takes the first
canonical path that merely exists — here a non-executable one — and never
consults the executable search path, unlike the claimed resolution
(`browserResolveClaimed`), which differs from it on both counts. -/
theorem claim6_counterexample :
    selectChromeBinary exC6 = some "/usr/bin/google-chrome" ∧
    execFalse "/usr/bin/google-chrome" = false ∧
    browserResolveClaimed none exC6 execFalse = none ∧
    browserResolveClaimed (some "/snap/bin/chromium") execFalse execFalse =
      some "/snap/bin/chromium" ∧
    selectChromeBinary execFalse = none := by
  refine ⟨?_, ?_, ?_, ?_, ?_⟩ <;> decide

/-- C6 amended: the two-stage search-path-then-canonical-paths resolution with
an exists-and-executable test is how the ChromeDriver is resolved
(`get_chromedriver_path`); the browser binary is resolved only by probing the
canonical binary paths for mere existence. -/
theorem claim6_amended (ex exec : String → Bool) :
    (∀ p, get_chromedriver_path (some p) ex exec = some p) ∧
    (get_chromedriver_path none ex exec =
      common_paths.find? fun p => ex p && exec p) ∧
    (∀ p, get_chromedriver_path none ex exec = some p →
      p ∈ common_paths ∧ ex p = true ∧ exec p = true) ∧
    (selectChromeBinary ex = chrome_binary_paths.find? ex) ∧
    (∀ p, selectChromeBinary ex = some p → p ∈ chrome_binary_paths ∧ ex p = true) := by
  refine ⟨fun p => rfl, rfl, ?_, rfl, ?_⟩
  · intro p hp
    have hp2 : common_paths.find? (fun p => ex p && exec p) = some p := hp
    have hpred := List.find?_some hp2
    rw [Bool.and_eq_true] at hpred
    exact ⟨List.mem_of_find?_eq_some hp2, hpred.1, hpred.2⟩
  · intro p hp
    have hp2 : chrome_binary_paths.find? ex = some p := hp
    exact ⟨List.mem_of_find?_eq_some hp2, List.find?_some hp2⟩

/-- Witness for C6 amended: a search-path hit short-circuits ChromeDriver
resolution, and the binary selected on `exC6` exists. -/
theorem claim6_amended_witness :
    get_chromedriver_path (some "/found/chromedriver") exC6 execFalse =
      some "/found/chromedriver" ∧
    ("/usr/bin/google-chrome" ∈ chrome_binary_paths ∧
      exC6 "/usr/bin/google-chrome" = true) :=
  ⟨(claim6_amended exC6 execFalse).1 "/found/chromedriver",
   (claim6_amended exC6 execFalse).2.2.2.2 "/usr/bin/google-chrome" (by decide)⟩

/-- C7 counterexample: when webdriver-manager is available and its install
fails, the 500 message names webdriver-manager and the cause but lists none of
the remediation options; and when it is unavailable, provisioning does not
fail at all if Selenium automatic detection succeeds. -/
theorem claim7_counterexample :
    (scrape envNoDriverManagerFails true "cat").1 =
      .error ⟨500, "Failed to get suggestions: 500: Failed to setup ChromeDriver with webdriver-manager: boom"⟩ ∧
    containsSub "Failed to get suggestions: 500: Failed to setup ChromeDriver with webdriver-manager: boom" "apt-get" = false ∧
    containsSub "Failed to get suggestions: 500: Failed to setup ChromeDriver with webdriver-manager: boom" "pip install" = false ∧
    containsSub "Failed to get suggestions: 500: Failed to setup ChromeDriver with webdriver-manager: boom" "Add ChromeDriver to PATH" = false ∧
    (scrape envNoDriverNoManager true "cat").1 = .ok ["Category", "cats"] := by
  refine ⟨rfl, ?_, ?_, ?_, rfl⟩ <;> decide

/-- C7 amended: with no driver found, an available webdriver-manager is tried
and its failure produces the wrapped manager-failure message; with
webdriver-manager unavailable, Selenium automatic detection is tried, whose
failure produces the wrapped remediation-listing message (which does contain
all three remediation options), and whose success lets the scrape proceed. -/
theorem claim7_amended (env : Env) (hd : Bool) (q e : String)
    (hno : get_chromedriver_path env.whichChromedriver env.pathExists env.pathExec = none) :
    (env.managerAvailable = true → env.managerInstall = .error e →
      (scrape env hd q).1 =
        .error ⟨500, wrapDetail (httpExceptionStr 500 (managerFailMsg e))⟩) ∧
    (env.managerAvailable = false → env.chromeCreateErr = some e →
      (scrape env hd q).1 =
        .error ⟨500, wrapDetail (httpExceptionStr 500 (chromedriverNotFoundMsg e))⟩) ∧
    (env.managerAvailable = false → env.chromeCreateErr = none →
      (scrape env hd q).1 = scrapeBody env q) ∧
    containsSub (chromedriverNotFoundMsg e)
      "1. Install ChromeDriver: apt-get install chromium-chromedriver" = true ∧
    containsSub (chromedriverNotFoundMsg e)
      "2. Install webdriver-manager: pip install webdriver-manager" = true ∧
    containsSub (chromedriverNotFoundMsg e) "3. Add ChromeDriver to PATH" = true := by
  refine ⟨?_, ?_, ?_, ?_, ?_, ?_⟩
  · intro h1 h2
    unfold scrape
    rw [hno]
    simp only [h1, if_true, h2]
  · intro h1 h2
    unfold scrape
    rw [hno]
    simp only [h1, Bool.false_eq_true, if_false, h2]
  · intro h1 h2
    unfold scrape
    rw [hno]
    simp only [h1, Bool.false_eq_true, if_false, h2, afterDriver_eq]
  · exact containsSub_append_left chromedriverNotFoundPre e _ (by decide)
  · exact containsSub_append_left chromedriverNotFoundPre e _ (by decide)
  · exact containsSub_append_left chromedriverNotFoundPre e _ (by decide)

/-- Witness for C7 amended at the concrete failing environment. -/
theorem claim7_amended_witness :
    (scrape envNoDriverManagerFails true "cat").1 =
      .error ⟨500, wrapDetail (httpExceptionStr 500 (managerFailMsg "boom"))⟩ ∧
    containsSub (chromedriverNotFoundMsg "boom") "3. Add ChromeDriver to PATH" = true :=
  ⟨(claim7_amended envNoDriverManagerFails true "cat" "boom" (by decide)).1 rfl rfl,
   (claim7_amended envNoDriverManagerFails true "cat" "boom" (by decide)).2.2.2.2.2⟩

end Grok
